import Mathlib

/-!
Shallow embedding of the Opening-Range-Breakout trading decision engine
(`src/strategy.py`, `src/risk_manager.py`, entry points in `main.py`).
Prices and P&L are modelled as rationals; Python's `round(x, 2)` is modelled
by `round2` (round half to even at two decimals); Python's `int(x)` truncation
toward zero by `truncInt`.  Sides are kept as the strings the code uses
("BUY", "SHORT").  Module-level configuration (`config/settings.py`) is a
`Config` record passed explicitly; `defaultCfg` carries the repository's
literal values.
-/

namespace OrbBot

/-- Python `round(x, 2)`: round half to even, at two decimal places. -/
def round2 (x : ℚ) : ℚ :=
  ((if x * 100 - ⌊x * 100⌋ < 1/2 then ⌊x * 100⌋
    else if 1/2 < x * 100 - ⌊x * 100⌋ then ⌊x * 100⌋ + 1
    else if ⌊x * 100⌋ % 2 = 0 then ⌊x * 100⌋
    else ⌊x * 100⌋ + 1 : ℤ) : ℚ) / 100

/-- Python `int(x)` on a float: truncation toward zero. -/
def truncInt (q : ℚ) : ℤ :=
  if 0 ≤ q then ⌊q⌋ else -⌊-q⌋

/-- The configuration surface read by the strategy and risk manager
(`config/settings.py`). -/
structure Config where
  dailyProfitTarget : ℚ
  dailyMaxLoss : ℚ
  riskPerTrade : ℚ
  emaSlow : ℕ
  rsiBuyMin : ℚ
  rsiBuyMax : ℚ
  rsiSellMin : ℚ
  rsiSellMax : ℚ
  volumeMultiplier : ℚ
  stopLossPct : ℚ
  targetPct : ℚ
  atrStopMultiplier : ℚ
  atrTargetMultiplier : ℚ
  trailingAtrMultiplier : ℚ
  useVwapFilter : Bool
  maxTradesPerDay : ℕ
  maxConsecutiveLosses : ℕ

/-- The literal values of `config/settings.py` (RISK_PER_TRADE =
2500 × 5 × 0.02 = 250). -/
def defaultCfg : Config :=
  { dailyProfitTarget := 50
    dailyMaxLoss := 50
    riskPerTrade := 250
    emaSlow := 21
    rsiBuyMin := 45
    rsiBuyMax := 70
    rsiSellMin := 30
    rsiSellMax := 55
    volumeMultiplier := 3/2
    stopLossPct := 1/200
    targetPct := 3/400
    atrStopMultiplier := 3/2
    atrTargetMultiplier := 5/2
    trailingAtrMultiplier := 3/2
    useVwapFilter := true
    maxTradesPerDay := 3
    maxConsecutiveLosses := 3 }

/-- `risk_distance` of `_calc_stop_target` / `risk_per_share` of
`_calc_quantity` (strategy.py lines 364-368, 393-396). -/
def risk_distance (cfg : Config) (price atr : ℚ) : ℚ :=
  if 0 < atr then atr * cfg.atrStopMultiplier else price * cfg.stopLossPct

/-- `target_distance` of `_calc_stop_target` (strategy.py lines 364-369). -/
def target_distance (cfg : Config) (price atr : ℚ) : ℚ :=
  if 0 < atr then atr * cfg.atrTargetMultiplier else price * cfg.targetPct

/-- `_calc_stop_target` (strategy.py lines 357-378):
(stop_loss, target, initial risk), each rounded to two decimals. -/
def calc_stop_target (cfg : Config) (price atr : ℚ) (side : String) :
    ℚ × ℚ × ℚ :=
  let riskDistance := risk_distance cfg price atr
  let targetDistance := target_distance cfg price atr
  if side = "BUY" then
    (round2 (price - riskDistance), round2 (price + targetDistance),
      round2 riskDistance)
  else
    (round2 (price + riskDistance), round2 (price - targetDistance),
      round2 riskDistance)

/-- The spec's description of the stop/target calculator (§4.2), without the
code's two-decimal rounding: used to compare the claim's formula with the
implementation. -/
def calc_stop_target_spec (cfg : Config) (price atr : ℚ) (side : String) :
    ℚ × ℚ × ℚ :=
  let riskPerUnit := if 0 < atr then atr * cfg.atrStopMultiplier
      else price * cfg.stopLossPct
  let targetDistance := if 0 < atr then atr * cfg.atrTargetMultiplier
      else price * cfg.targetPct
  if side = "BUY" then
    (price - riskPerUnit, price + targetDistance, riskPerUnit)
  else
    (price + riskPerUnit, price - targetDistance, riskPerUnit)

/-- `_calc_quantity` (strategy.py lines 381-403). -/
def calc_quantity (cfg : Config) (price availableCapital atr : ℚ) : ℤ :=
  if price ≤ 0 then 0
  else if risk_distance cfg price atr ≤ 0 then 0
  else
    max (min (truncInt (cfg.riskPerTrade / risk_distance cfg price atr))
      (truncInt (availableCapital / price))) 0

/-- One completed trade as `RiskManager.record_trade` logs it
(risk_manager.py lines 49-58). -/
structure TradeRecord where
  instrumentKey : String
  side : String
  entryPrice : ℚ
  exitPrice : ℚ
  quantity : ℤ
  pnl : ℚ
  reason : String
deriving DecidableEq

/-- The `RiskManager` state (risk_manager.py lines 18-25); the trade date is
day-scoped and plays no role in the claims. -/
structure RiskManager where
  realisedPnl : ℚ := 0
  openPnl : ℚ := 0
  trades : List TradeRecord := []
  totalTrades : ℕ := 0
  winningTrades : ℕ := 0
deriving DecidableEq

/-- The freshly constructed `RiskManager` (risk_manager.py `__init__`). -/
def RiskManager.init : RiskManager := {}

/-- `RiskManager.record_trade` (risk_manager.py lines 29-66): book a
completed trade, return the updated state and the trade's P&L. -/
def RiskManager.record_trade (rm : RiskManager)
    (instrumentKey side : String) (entryPrice exitPrice : ℚ) (quantity : ℤ)
    (reason : String) : RiskManager × ℚ :=
  let pnl := if side = "BUY" then (exitPrice - entryPrice) * quantity
    else (entryPrice - exitPrice) * quantity
  let rm :=
    { rm with
      realisedPnl := rm.realisedPnl + pnl
      totalTrades := rm.totalTrades + 1
      winningTrades := if 0 < pnl then rm.winningTrades + 1
        else rm.winningTrades
      trades := rm.trades ++
        [⟨instrumentKey, side, entryPrice, exitPrice, quantity,
          round2 pnl, reason⟩] }
  (rm, pnl)

/-- `RiskManager.update_open_pnl` (risk_manager.py lines 68-70). -/
def RiskManager.update_open_pnl (rm : RiskManager) (pnl : ℚ) : RiskManager :=
  { rm with openPnl := pnl }

/-- `RiskManager.total_pnl` (risk_manager.py lines 72-74). -/
def RiskManager.total_pnl (rm : RiskManager) : ℚ :=
  round2 (rm.realisedPnl + rm.openPnl)

/-- `RiskManager.is_profit_target_hit` (risk_manager.py lines 78-87). -/
def RiskManager.is_profit_target_hit (cfg : Config) (rm : RiskManager) :
    Bool :=
  decide (cfg.dailyProfitTarget ≤ rm.realisedPnl)

/-- `RiskManager.is_max_loss_hit` (risk_manager.py lines 89-98). -/
def RiskManager.is_max_loss_hit (cfg : Config) (rm : RiskManager) : Bool :=
  decide (rm.total_pnl ≤ -cfg.dailyMaxLoss)

/-- `RiskManager.can_trade` (risk_manager.py lines 100-102). -/
def RiskManager.can_trade (cfg : Config) (rm : RiskManager) : Bool :=
  !rm.is_profit_target_hit cfg && !rm.is_max_loss_hit cfg

/-- The `Signal` dataclass (strategy.py lines 40-49), with its field
defaults.  The human-readable reasons are modelled as short tags. -/
structure Signal where
  action : String
  instrumentKey : String
  reason : String
  ltp : ℚ
  quantity : ℤ
  stopLoss : ℚ := 0
  target : ℚ := 0
  side : String := "BUY"
deriving DecidableEq

/-- The `Position` dataclass (strategy.py lines 52-63); `entry_time` plays no
role in the claims. -/
structure Position where
  instrumentKey : String
  entryPrice : ℚ
  quantity : ℤ
  stopLoss : ℚ
  target : ℚ
  side : String := "BUY"
  initialRisk : ℚ := 0
  peakPrice : ℚ := 0
  trailingActive : Bool := false
deriving DecidableEq

/-- `Position.unrealised_pnl` (strategy.py lines 69-73). -/
def Position.unrealised_pnl (p : Position) (ltp : ℚ) : ℚ :=
  if p.side = "BUY" then (ltp - p.entryPrice) * p.quantity
  else (p.entryPrice - ltp) * p.quantity

/-- `Position.update_trailing` (strategy.py lines 75-126): peak tracking,
one-time activation at 1R, then ATR trailing. -/
def Position.update_trailing (cfg : Config) (p : Position) (ltp atr : ℚ) :
    Position :=
  if p.side = "BUY" then
    let p1 := if p.peakPrice < ltp then { p with peakPrice := ltp } else p
    let p2 :=
      if ¬p1.trailingActive = true ∧ 0 < p1.initialRisk ∧
          p1.entryPrice + p1.initialRisk ≤ ltp then
        { p1 with trailingActive := true
                  stopLoss := round2 (p1.entryPrice + 1/10) }
      else p1
    if p2.trailingActive = true ∧ 0 < atr then
      let trailStop := round2 (p2.peakPrice - cfg.trailingAtrMultiplier * atr)
      if p2.stopLoss < trailStop then { p2 with stopLoss := trailStop }
      else p2
    else p2
  else
    let p1 := if p.peakPrice = 0 ∨ ltp < p.peakPrice then
        { p with peakPrice := ltp }
      else p
    let p2 :=
      if ¬p1.trailingActive = true ∧ 0 < p1.initialRisk ∧
          ltp ≤ p1.entryPrice - p1.initialRisk then
        { p1 with trailingActive := true
                  stopLoss := round2 (p1.entryPrice - 1/10) }
      else p1
    if p2.trailingActive = true ∧ 0 < atr then
      let trailStop := round2 (p2.peakPrice + cfg.trailingAtrMultiplier * atr)
      if trailStop < p2.stopLoss then { p2 with stopLoss := trailStop }
      else p2
    else p2

/-- The fields of the latest enriched bar that `generate_signal` reads
(strategy.py lines 167-175, after the `get(...)` defaults are applied). -/
structure Bar where
  close : ℚ
  ema9 : ℚ
  ema21 : ℚ
  rsi : ℚ
  volume : ℚ
  volMa : ℚ
  atr : ℚ
  vwap : ℚ
deriving DecidableEq

/-- The per-instrument `ORBStrategy` state (strategy.py lines 136-141). -/
structure ORBStrategy where
  instrumentKey : String
  orHigh : Option ℚ := none
  orLow : Option ℚ := none
  orEstablished : Bool := false
  position : Option Position := none
deriving DecidableEq

/-- The `hold` signal `generate_signal` starts from (strategy.py line 162). -/
def holdSignal (key : String) : Signal :=
  { action := "HOLD", instrumentKey := key, reason := "no action", ltp := 0,
    quantity := 0 }

/-- The trailing update `generate_signal` performs before any exit check
(strategy.py lines 182-184): `update_trailing` runs only when ATR > 0. -/
def post_trailing (cfg : Config) (p : Position) (b : Bar) : Position :=
  if 0 < b.atr then p.update_trailing cfg b.close b.atr else p

/-- `generate_signal`, open-position branch (strategy.py lines 177-242):
trailing update first (when ATR > 0), then stop-loss, target and
EMA-reversal exits in order, else HOLD keeping the mutated position. -/
def ORBStrategy.manage_position (cfg : Config) (st : ORBStrategy)
    (p : Position) (b : Bar) : ORBStrategy × Signal :=
  let p1 := post_trailing cfg p b
  if p1.side = "BUY" ∧ b.close ≤ p1.stopLoss then
    ({ st with position := none },
      { action := "EXIT", instrumentKey := st.instrumentKey,
        reason := "stop-loss", ltp := b.close, quantity := p1.quantity,
        side := p1.side })
  else if p1.side = "SHORT" ∧ p1.stopLoss ≤ b.close then
    ({ st with position := none },
      { action := "EXIT", instrumentKey := st.instrumentKey,
        reason := "stop-loss", ltp := b.close, quantity := p1.quantity,
        side := p1.side })
  else if p1.side = "BUY" ∧ p1.target ≤ b.close then
    ({ st with position := none },
      { action := "EXIT", instrumentKey := st.instrumentKey,
        reason := "target", ltp := b.close, quantity := p1.quantity,
        side := p1.side })
  else if p1.side = "SHORT" ∧ b.close ≤ p1.target then
    ({ st with position := none },
      { action := "EXIT", instrumentKey := st.instrumentKey,
        reason := "target", ltp := b.close, quantity := p1.quantity,
        side := p1.side })
  else if ¬p1.trailingActive = true ∧ p1.side = "BUY" ∧ b.ema9 < b.ema21 ∧
      b.rsi < 40 then
    ({ st with position := none },
      { action := "EXIT", instrumentKey := st.instrumentKey,
        reason := "EMA reversal", ltp := b.close, quantity := p1.quantity,
        side := p1.side })
  else if ¬p1.trailingActive = true ∧ p1.side = "SHORT" ∧ b.ema21 < b.ema9 ∧
      60 < b.rsi then
    ({ st with position := none },
      { action := "EXIT", instrumentKey := st.instrumentKey,
        reason := "EMA reversal", ltp := b.close, quantity := p1.quantity,
        side := p1.side })
  else
    ({ st with position := some p1 },
      { action := "HOLD", instrumentKey := st.instrumentKey,
        reason := "in position", ltp := b.close, quantity := 0,
        side := p1.side })

/-- `generate_signal`, new-entry branch (strategy.py lines 244-339):
multi-layer confirmation, LONG evaluated first, HOLD on insufficient
capital. -/
def ORBStrategy.try_entry (cfg : Config) (st : ORBStrategy) (b : Bar)
    (availableCapital : ℚ) : ORBStrategy × Signal :=
  if ¬st.orEstablished = true then (st, holdSignal st.instrumentKey)
  else if st.orHigh.getD 0 < b.close ∧ b.ema21 < b.ema9 ∧
      (cfg.rsiBuyMin ≤ b.rsi ∧ b.rsi ≤ cfg.rsiBuyMax) ∧
      b.volMa * cfg.volumeMultiplier ≤ b.volume ∧
      (¬cfg.useVwapFilter = true ∨ (0 < b.vwap ∧ b.vwap < b.close)) then
    let s := calc_stop_target cfg b.close b.atr "BUY"
    let qty := calc_quantity cfg b.close availableCapital b.atr
    if qty < 1 then
      (st, { action := "HOLD", instrumentKey := st.instrumentKey,
             reason := "insufficient capital", ltp := b.close,
             quantity := 0 })
    else
      let pos : Position :=
        { instrumentKey := st.instrumentKey, entryPrice := b.close,
          quantity := qty, stopLoss := s.1, target := s.2.1,
          side := "BUY", initialRisk := s.2.2, peakPrice := b.close }
      ({ st with position := some pos },
        { action := "BUY", instrumentKey := st.instrumentKey,
          reason := "ORB breakout", ltp := b.close, quantity := qty,
          stopLoss := s.1, target := s.2.1, side := "BUY" })
  else if b.close < st.orLow.getD 0 ∧ b.ema9 < b.ema21 ∧
      (cfg.rsiSellMin ≤ b.rsi ∧ b.rsi ≤ cfg.rsiSellMax) ∧
      b.volMa * cfg.volumeMultiplier ≤ b.volume ∧
      (¬cfg.useVwapFilter = true ∨ (0 < b.vwap ∧ b.close < b.vwap)) then
    let s := calc_stop_target cfg b.close b.atr "SHORT"
    let qty := calc_quantity cfg b.close availableCapital b.atr
    if qty < 1 then
      (st, { action := "HOLD", instrumentKey := st.instrumentKey,
             reason := "insufficient capital", ltp := b.close,
             quantity := 0 })
    else
      let pos : Position :=
        { instrumentKey := st.instrumentKey, entryPrice := b.close,
          quantity := qty, stopLoss := s.1, target := s.2.1,
          side := "SHORT", initialRisk := s.2.2, peakPrice := b.close }
      ({ st with position := some pos },
        { action := "SHORT", instrumentKey := st.instrumentKey,
          reason := "ORB breakdown", ltp := b.close, quantity := qty,
          stopLoss := s.1, target := s.2.1, side := "SHORT" })
  else (st, holdSignal st.instrumentKey)

/-- `ORBStrategy.generate_signal` (strategy.py lines 156-339): warm-up guard,
then position management or entry evaluation on the latest bar. -/
def ORBStrategy.generate_signal (cfg : Config) (st : ORBStrategy)
    (df : List Bar) (availableCapital : ℚ) : ORBStrategy × Signal :=
  if df = [] ∨ df.length < cfg.emaSlow + 5 then
    (st, holdSignal st.instrumentKey)
  else
    match df.getLast? with
    | none => (st, holdSignal st.instrumentKey)
    | some b =>
      match st.position with
      | some p => st.manage_position cfg p b
      | none => st.try_entry cfg b availableCapital

/-- `ORBStrategy.force_exit_signal` (strategy.py lines 341-352). -/
def ORBStrategy.force_exit_signal (st : ORBStrategy) (ltp : ℚ) :
    ORBStrategy × Option Signal :=
  match st.position with
  | some p =>
    ({ st with position := none },
      some { action := "EXIT", instrumentKey := st.instrumentKey,
             reason := "force exit", ltp := ltp, quantity := p.quantity,
             side := p.side })
  | none => (st, none)

/-- The position the orchestrator rebuilds after an unfilled exit order
(main.py lines 449-457): stop and target are taken from the EXIT signal's
fields, the remaining fields from the dataclass defaults. -/
def restore_position (key : String) (entryPrice : ℚ) (qty : ℤ)
    (sig : Signal) : Position :=
  { instrumentKey := key, entryPrice := entryPrice, quantity := qty,
    stopLoss := sig.stopLoss, target := sig.target, side := sig.side }

/-! Concrete states, bars and predicates used by the claim
theorems below -/

/-- The direction-aware stop-loss exit condition of `generate_signal`
(strategy.py lines 186-202), as a predicate on the checked position. -/
def stop_hit (p : Position) (close : ℚ) : Prop :=
  (p.side = "BUY" ∧ close ≤ p.stopLoss) ∨
  (p.side = "SHORT" ∧ p.stopLoss ≤ close)

/-- The target exit condition of `generate_signal` (strategy.py lines
204-218). -/
def target_hit (p : Position) (close : ℚ) : Prop :=
  (p.side = "BUY" ∧ p.target ≤ close) ∨
  (p.side = "SHORT" ∧ close ≤ p.target)

/-- The EMA-reversal exit condition of `generate_signal` (strategy.py lines
220-235), without its trailing-not-active guard. -/
def ema_reversal (p : Position) (b : Bar) : Prop :=
  (p.side = "BUY" ∧ b.ema9 < b.ema21 ∧ b.rsi < 40) ∨
  (p.side = "SHORT" ∧ b.ema21 < b.ema9 ∧ 60 < b.rsi)

/-- The strategy state used by the C8 witness. -/
def c8St : ORBStrategy :=
  { instrumentKey := "k", orHigh := some 102, orLow := some 98,
    orEstablished := true }

/-- The trailing-active BUY position used by the C3 counterexample: its
start-of-cycle stop is 90 while the bar closes at 100. -/
def c3Pos : Position :=
  { instrumentKey := "k", entryPrice := 100, quantity := 1, stopLoss := 90,
    target := 200, side := "BUY", initialRisk := 3, peakPrice := 120,
    trailingActive := true }

/-- The bar used by the C3 counterexample (ATR 0.1, close 100). -/
def c3Bar : Bar :=
  { close := 100, ema9 := 50, ema21 := 48, rsi := 55, volume := 100,
    volMa := 10, atr := 1/10, vwap := 90 }

/-- The strategy state holding `c3Pos`, used by the C3 counterexample. -/
def c3St : ORBStrategy :=
  { instrumentKey := "k", orHigh := some 99, orLow := some 95,
    orEstablished := true, position := some c3Pos }

/-- A 26-bar history ending in `c3Bar` (long enough to pass warm-up). -/
def c3Df : List Bar := List.replicate 25 c3Bar ++ [c3Bar]

/-- The not-yet-trailing BUY position used by the C3 witness. -/
def c3wPos : Position :=
  { instrumentKey := "k", entryPrice := 100, quantity := 2, stopLoss := 97,
    target := 105, side := "BUY", initialRisk := 3, peakPrice := 100 }

/-- The bar used by the C3 witness (ATR 0, close 96, below the stop). -/
def c3wBar : Bar :=
  { close := 96, ema9 := 50, ema21 := 48, rsi := 55, volume := 100,
    volMa := 10, atr := 0, vwap := 90 }

/-- The strategy state holding `c3wPos`, used by the C3 witness. -/
def c3wSt : ORBStrategy :=
  { instrumentKey := "k", orHigh := some 99, orLow := some 95,
    orEstablished := true, position := some c3wPos }

/-- A 26-bar history ending in `c3wBar`. -/
def c3wDf : List Bar := List.replicate 25 c3wBar ++ [c3wBar]

/-- A sequence of `update_trailing(ltp, atr)` calls applied in order. -/
def apply_trailing (cfg : Config) (p : Position) (updates : List (ℚ × ℚ)) :
    Position :=
  updates.foldl (fun q u => q.update_trailing cfg u.1 u.2) p

/-- The trailing-active BUY position used for the C2 witness. -/
def c2Pos : Position :=
  { instrumentKey := "k", entryPrice := 100, quantity := 1, stopLoss := 97,
    target := 105, side := "BUY", initialRisk := 3, peakPrice := 100,
    trailingActive := true }

/-- The BUY position created by a confirmed entry at close 100 with ATR 2
(stop 97, target 105, initial risk 3, peak 100), used for the C4
counterexample. -/
def c4Pos : Position :=
  { instrumentKey := "k", entryPrice := 100, quantity := 1, stopLoss := 97,
    target := 105, side := "BUY", initialRisk := 3, peakPrice := 100 }

/-- The BUY position used by the C10 witness. -/
def c10Pos : Position :=
  { instrumentKey := "k", entryPrice := 100, quantity := 5, stopLoss := 97,
    target := 105, side := "BUY", initialRisk := 3, peakPrice := 100 }

/-- The bar used by the C10 witness (close 96 breaches the stop). -/
def c10Bar : Bar :=
  { close := 96, ema9 := 50, ema21 := 48, rsi := 55, volume := 100,
    volMa := 10, atr := 0, vwap := 90 }

/-- The strategy state holding `c10Pos`, used by the C10 witness. -/
def c10St : ORBStrategy :=
  { instrumentKey := "k", orHigh := some 99, orLow := some 95,
    orEstablished := true, position := some c10Pos }

/-- A 26-bar history ending in `c10Bar`. -/
def c10Df : List Bar := List.replicate 25 c10Bar ++ [c10Bar]

/-! Helper lemmas -/

lemma truncInt_eq_floor (q : ℚ) (h : 0 ≤ q) : truncInt q = ⌊q⌋ :=
  if_pos h

lemma long_ne_buy : ("LONG" : String) ≠ "BUY" := by decide

lemma short_ne_buy : ("SHORT" : String) ≠ "BUY" := by decide

lemma buy_ne_short : ("BUY" : String) ≠ "SHORT" := by decide

lemma round2_bounds (x : ℚ) :
    x - 1/200 ≤ round2 x ∧ round2 x ≤ x + 1/200 := by
  have h100 : (0:ℚ) < 100 := by norm_num
  have h1 : (⌊x * 100⌋ : ℚ) ≤ x * 100 := Int.floor_le _
  have h2 : x * 100 < ⌊x * 100⌋ + 1 := Int.lt_floor_add_one _
  unfold round2
  split_ifs with ha hb hc <;>
    refine ⟨?_, ?_⟩ <;>
    first
      | (rw [le_div_iff₀ h100]; push_cast; linarith)
      | (rw [div_le_iff₀ h100]; push_cast; linarith)

/-! Claim C5: the stop/target calculator -/

/-- C5 counterexample: with ATR = 1/1000 the two-decimal rounding makes the
returned stop, target and risk differ from the claim's exact formulas
(`_calc_stop_target(100, 0.001, "BUY")` returns (100, 100, 0), the claim's
formulas give (99.9985, 100.0025, 0.0015)). -/
theorem c5_counterexample :
    calc_stop_target defaultCfg 100 (1/1000) "BUY" = (100, 100, 0) ∧
    calc_stop_target_spec defaultCfg 100 (1/1000) "BUY" ≠ (100, 100, 0) := by
  constructor
  · norm_num [calc_stop_target, risk_distance, target_distance, round2,
      defaultCfg]
  · norm_num [calc_stop_target_spec, defaultCfg]

/-- C5 (amended): `_calc_stop_target` returns the claim's formulas with each
component rounded to two decimals (Python `round(·, 2)`), and both concrete
examples of the claim hold exactly as stated. -/
theorem c5_amended :
    (∀ (cfg : Config) (price atr : ℚ) (side : String),
      calc_stop_target cfg price atr side =
        (round2 (calc_stop_target_spec cfg price atr side).1,
          round2 (calc_stop_target_spec cfg price atr side).2.1,
          round2 (calc_stop_target_spec cfg price atr side).2.2)) ∧
    calc_stop_target defaultCfg 100 2 "BUY" = (97, 105, 3) ∧
    calc_stop_target
        { defaultCfg with stopLossPct := 1/200, targetPct := 1/100 }
        100 0 "SHORT" = (201/2, 99, 1/2) := by
  refine ⟨fun cfg price atr side => ?_,
    by norm_num [calc_stop_target, risk_distance, target_distance, round2,
      defaultCfg],
    by norm_num [calc_stop_target, risk_distance, target_distance, round2,
      defaultCfg, buy_ne_short.symm]⟩
  simp only [calc_stop_target, calc_stop_target_spec, risk_distance,
    target_distance]
  split_ifs <;> rfl

/-! Claim C6: the quantity calculator -/

/-- C6: `_calc_quantity` is never negative, is 0 when the available capital
is 0 or the risk per unit is 0, and on positive price, positive risk per
unit and nonnegative capital and risk budget it equals
max(0, min(floor(riskBudget / riskPerUnit), floor(capital / price))). -/
theorem c6_quantity (cfg : Config) (price capital atr : ℚ) :
    0 ≤ calc_quantity cfg price capital atr ∧
    (capital = 0 → calc_quantity cfg price capital atr = 0) ∧
    (risk_distance cfg price atr = 0 →
      calc_quantity cfg price capital atr = 0) ∧
    (0 < price → 0 < risk_distance cfg price atr → 0 ≤ capital →
      0 ≤ cfg.riskPerTrade →
      calc_quantity cfg price capital atr =
        max 0 (min ⌊cfg.riskPerTrade / risk_distance cfg price atr⌋
          ⌊capital / price⌋)) := by
  refine ⟨?_, ?_, ?_, ?_⟩
  · unfold calc_quantity
    split_ifs <;> simp
  · intro h0
    subst h0
    unfold calc_quantity
    split_ifs with h1 h2
    · rfl
    · rfl
    · have h3 : truncInt (0 / price) = 0 := by
        rw [zero_div, truncInt_eq_floor 0 le_rfl, Int.floor_zero]
      rw [h3]
      exact max_eq_right (min_le_right _ _)
  · intro h0
    unfold calc_quantity
    split_ifs with h1 h2
    · rfl
    · rfl
    · rw [h0] at h2
      exact absurd le_rfl h2
  · intro hp hr hc hb
    unfold calc_quantity
    split_ifs with h1 h2
    · exact absurd h1 (not_le.mpr hp)
    · exact absurd h2 (not_le.mpr hr)
    · rw [truncInt_eq_floor _ (div_nonneg hb hr.le),
        truncInt_eq_floor _ (div_nonneg hc hp.le), max_comm]

/-! Generate-signal reduction lemmas -/

lemma generate_signal_open (cfg : Config) (st : ORBStrategy)
    (df : List Bar) (cap : ℚ) (p : Position) (b : Bar)
    (hp : st.position = some p) (hlen : cfg.emaSlow + 5 ≤ df.length)
    (hlast : df.getLast? = some b) :
    st.generate_signal cfg df cap = st.manage_position cfg p b := by
  have hne : ¬(df = [] ∨ df.length < cfg.emaSlow + 5) := by
    rintro (rfl | hlt)
    · simp only [List.length_nil] at hlen
      omega
    · omega
  simp only [ORBStrategy.generate_signal, if_neg hne, hlast, hp]

/-! Claim C8: warm-up guard -/

/-- C8: for every strategy state (position open or not, opening range
established or not) and every bar list shorter than the warm-up length
EMA_SLOW + 5, `generate_signal` returns the HOLD signal and leaves the
state unchanged; the embedding is a total function, so no exception is
raised. -/
theorem c8_warmup_hold (cfg : Config) (st : ORBStrategy) (df : List Bar)
    (capital : ℚ) (h : df.length < cfg.emaSlow + 5) :
    st.generate_signal cfg df capital = (st, holdSignal st.instrumentKey) :=
  by
  rw [ORBStrategy.generate_signal, if_pos (Or.inr h)]

/-- C8 witness: the theorem applied to the empty bar list. -/
theorem c8_warmup_hold_witness :
    ([] : List Bar).length < defaultCfg.emaSlow + 5 ∧
    c8St.generate_signal defaultCfg [] 1000 =
      (c8St, holdSignal c8St.instrumentKey) :=
  ⟨by norm_num [defaultCfg],
    c8_warmup_hold defaultCfg c8St [] 1000 (by norm_num [defaultCfg])⟩

/-! Claim C3: exit evaluation order while a position is open -/

lemma manage_stop_exit (cfg : Config) (st : ORBStrategy) (df : List Bar)
    (cap : ℚ) (p : Position) (b : Bar)
    (hp : st.position = some p) (hlen : cfg.emaSlow + 5 ≤ df.length)
    (hlast : df.getLast? = some b)
    (hs : stop_hit (post_trailing cfg p b) b.close) :
    (st.generate_signal cfg df cap).2.action = "EXIT" ∧
    (st.generate_signal cfg df cap).2.reason = "stop-loss" := by
  rw [generate_signal_open cfg st df cap p b hp hlen hlast]
  simp only [ORBStrategy.manage_position]
  simp only [stop_hit] at hs
  set q := post_trailing cfg p b with hq
  clear hq
  clear_value q
  split_ifs with h1 h2 h3 h4 h5 h6
  · exact ⟨rfl, rfl⟩
  · exact ⟨rfl, rfl⟩
  all_goals rcases hs with h | h
  all_goals first | exact absurd h h1 | exact absurd h h2

lemma manage_target_exit (cfg : Config) (st : ORBStrategy) (df : List Bar)
    (cap : ℚ) (p : Position) (b : Bar)
    (hp : st.position = some p) (hlen : cfg.emaSlow + 5 ≤ df.length)
    (hlast : df.getLast? = some b)
    (hs : ¬stop_hit (post_trailing cfg p b) b.close)
    (ht : target_hit (post_trailing cfg p b) b.close) :
    (st.generate_signal cfg df cap).2.action = "EXIT" ∧
    (st.generate_signal cfg df cap).2.reason = "target" := by
  rw [generate_signal_open cfg st df cap p b hp hlen hlast]
  simp only [ORBStrategy.manage_position]
  simp only [stop_hit] at hs
  simp only [target_hit] at ht
  set q := post_trailing cfg p b with hq
  clear hq
  clear_value q
  split_ifs with h1 h2 h3 h4 h5 h6
  · exact absurd (Or.inl h1) hs
  · exact absurd (Or.inr h2) hs
  · exact ⟨rfl, rfl⟩
  · exact ⟨rfl, rfl⟩
  all_goals rcases ht with h | h
  all_goals first | exact absurd h h3 | exact absurd h h4

lemma manage_ema_exit (cfg : Config) (st : ORBStrategy) (df : List Bar)
    (cap : ℚ) (p : Position) (b : Bar)
    (hp : st.position = some p) (hlen : cfg.emaSlow + 5 ≤ df.length)
    (hlast : df.getLast? = some b)
    (hs : ¬stop_hit (post_trailing cfg p b) b.close)
    (ht : ¬target_hit (post_trailing cfg p b) b.close)
    (ha : ¬(post_trailing cfg p b).trailingActive = true)
    (he : ema_reversal (post_trailing cfg p b) b) :
    (st.generate_signal cfg df cap).2.action = "EXIT" ∧
    (st.generate_signal cfg df cap).2.reason = "EMA reversal" := by
  rw [generate_signal_open cfg st df cap p b hp hlen hlast]
  simp only [ORBStrategy.manage_position]
  simp only [stop_hit] at hs
  simp only [target_hit] at ht
  simp only [ema_reversal] at he
  set q := post_trailing cfg p b with hq
  clear hq
  clear_value q
  split_ifs with h1 h2 h3 h4 h5 h6
  · exact absurd (Or.inl h1) hs
  · exact absurd (Or.inr h2) hs
  · exact absurd (Or.inl h3) ht
  · exact absurd (Or.inr h4) ht
  · exact ⟨rfl, rfl⟩
  · exact ⟨rfl, rfl⟩
  · rcases he with h | h
    · exact absurd ⟨ha, h⟩ h5
    · exact absurd ⟨ha, h⟩ h6

lemma manage_hold (cfg : Config) (st : ORBStrategy) (df : List Bar)
    (cap : ℚ) (p : Position) (b : Bar)
    (hp : st.position = some p) (hlen : cfg.emaSlow + 5 ≤ df.length)
    (hlast : df.getLast? = some b)
    (hs : ¬stop_hit (post_trailing cfg p b) b.close)
    (ht : ¬target_hit (post_trailing cfg p b) b.close)
    (he : (post_trailing cfg p b).trailingActive = true ∨
      ¬ema_reversal (post_trailing cfg p b) b) :
    (st.generate_signal cfg df cap).2.action = "HOLD" ∧
    (st.generate_signal cfg df cap).1.position =
      some (post_trailing cfg p b) := by
  rw [generate_signal_open cfg st df cap p b hp hlen hlast]
  simp only [ORBStrategy.manage_position]
  simp only [stop_hit] at hs
  simp only [target_hit] at ht
  simp only [ema_reversal] at he
  set q := post_trailing cfg p b with hq
  clear hq
  clear_value q
  split_ifs with h1 h2 h3 h4 h5 h6
  · exact absurd (Or.inl h1) hs
  · exact absurd (Or.inr h2) hs
  · exact absurd (Or.inl h3) ht
  · exact absurd (Or.inr h4) ht
  · rcases he with hact | hne
    · exact absurd hact h5.1
    · exact absurd (Or.inl h5.2) hne
  · rcases he with hact | hne
    · exact absurd hact h6.1
    · exact absurd (Or.inr h6.2) hne
  · exact ⟨rfl, rfl⟩

/-- C3 counterexample: the close (100) is strictly above the stop as it
stood at the start of the cycle (90), yet `generate_signal` emits a
stop-loss EXIT — the trailing update ran first and raised the stop to
119.85, and the stop-loss comparison used the updated stop, not the
start-of-cycle one; trailing maintenance was not confined to cycles where
no exit fires. -/
theorem c3_counterexample :
    c3Pos.stopLoss < c3Bar.close ∧
    (c3St.generate_signal defaultCfg c3Df 0).2.action = "EXIT" ∧
    (c3St.generate_signal defaultCfg c3Df 0).2.reason = "stop-loss" := by
  have hpost : post_trailing defaultCfg c3Pos c3Bar =
      { instrumentKey := "k", entryPrice := 100, quantity := 1,
        stopLoss := 2397/20, target := 200, side := "BUY", initialRisk := 3,
        peakPrice := 120, trailingActive := true } := by
    norm_num [post_trailing, Position.update_trailing, round2, c3Pos, c3Bar,
      defaultCfg]
  have hred := generate_signal_open defaultCfg c3St c3Df 0 c3Pos c3Bar rfl
    (by norm_num [c3Df, defaultCfg]) (by simp [c3Df])
  rw [hred]
  simp only [ORBStrategy.manage_position, hpost]
  norm_num [c3Pos, c3Bar]

/-- C3 (amended): while a position is open and the bar history passes
warm-up, `generate_signal` first runs the trailing update (when ATR > 0)
and then evaluates the exit conditions against the post-update position, in
the fixed order stop-loss, target, EMA-reversal (the latter only while
trailing has not activated); if none fires it emits HOLD and keeps the
trailing-updated position.  The stop-loss comparison therefore uses the
stop as updated this cycle, not the stop as it stood at the start of the
cycle. -/
theorem c3_exit_order (cfg : Config) (st : ORBStrategy) (df : List Bar)
    (cap : ℚ) (p : Position) (b : Bar)
    (hp : st.position = some p) (hlen : cfg.emaSlow + 5 ≤ df.length)
    (hlast : df.getLast? = some b) :
    (stop_hit (post_trailing cfg p b) b.close →
      (st.generate_signal cfg df cap).2.action = "EXIT" ∧
      (st.generate_signal cfg df cap).2.reason = "stop-loss") ∧
    (¬stop_hit (post_trailing cfg p b) b.close →
      target_hit (post_trailing cfg p b) b.close →
      (st.generate_signal cfg df cap).2.action = "EXIT" ∧
      (st.generate_signal cfg df cap).2.reason = "target") ∧
    (¬stop_hit (post_trailing cfg p b) b.close →
      ¬target_hit (post_trailing cfg p b) b.close →
      ¬(post_trailing cfg p b).trailingActive = true →
      ema_reversal (post_trailing cfg p b) b →
      (st.generate_signal cfg df cap).2.action = "EXIT" ∧
      (st.generate_signal cfg df cap).2.reason = "EMA reversal") ∧
    (¬stop_hit (post_trailing cfg p b) b.close →
      ¬target_hit (post_trailing cfg p b) b.close →
      ((post_trailing cfg p b).trailingActive = true ∨
        ¬ema_reversal (post_trailing cfg p b) b) →
      (st.generate_signal cfg df cap).2.action = "HOLD" ∧
      (st.generate_signal cfg df cap).1.position =
        some (post_trailing cfg p b)) :=
  ⟨fun hs => manage_stop_exit cfg st df cap p b hp hlen hlast hs,
    fun hs ht => manage_target_exit cfg st df cap p b hp hlen hlast hs ht,
    fun hs ht ha he =>
      manage_ema_exit cfg st df cap p b hp hlen hlast hs ht ha he,
    fun hs ht he => manage_hold cfg st df cap p b hp hlen hlast hs ht he⟩

/-- C3 witness: the amended theorem applied at a concrete state where the
stop-loss condition holds after the (here trivial) trailing update. -/
theorem c3_exit_order_witness :
    stop_hit (post_trailing defaultCfg c3wPos c3wBar) c3wBar.close ∧
    (c3wSt.generate_signal defaultCfg c3wDf 0).2.reason = "stop-loss" := by
  have hs : stop_hit (post_trailing defaultCfg c3wPos c3wBar) c3wBar.close :=
    by norm_num [stop_hit, post_trailing, c3wPos, c3wBar]
  exact ⟨hs, ((c3_exit_order defaultCfg c3wSt c3wDf 0 c3wPos c3wBar rfl
    (by norm_num [c3wDf, defaultCfg]) (by simp [c3wDf])).1 hs).2⟩

/-! Claim C2: trailing-stop monotonicity -/

lemma update_trailing_mono (cfg : Config) (p : Position) (l a : ℚ)
    (h : p.trailingActive = true) :
    (p.update_trailing cfg l a).trailingActive = true ∧
    (p.update_trailing cfg l a).side = p.side ∧
    (p.side = "BUY" → p.stopLoss ≤ (p.update_trailing cfg l a).stopLoss) ∧
    (¬p.side = "BUY" → (p.update_trailing cfg l a).stopLoss ≤ p.stopLoss) := by
  simp only [Position.update_trailing]
  split_ifs <;> simp_all <;> linarith

lemma apply_trailing_mono (cfg : Config) (updates : List (ℚ × ℚ)) :
    ∀ p : Position, p.trailingActive = true →
      (apply_trailing cfg p updates).trailingActive = true ∧
      (apply_trailing cfg p updates).side = p.side ∧
      (p.side = "BUY" →
        p.stopLoss ≤ (apply_trailing cfg p updates).stopLoss) ∧
      (¬p.side = "BUY" →
        (apply_trailing cfg p updates).stopLoss ≤ p.stopLoss) := by
  induction updates with
  | nil => exact fun p h => ⟨h, rfl, fun _ => le_rfl, fun _ => le_rfl⟩
  | cons u us ih =>
    intro p h
    obtain ⟨ha, hs, hb, hsh⟩ := update_trailing_mono cfg p u.1 u.2 h
    obtain ⟨ha2, hs2, hb2, hsh2⟩ := ih (p.update_trailing cfg u.1 u.2) ha
    refine ⟨ha2, hs2.trans hs, fun hbuy => ?_, fun hnb => ?_⟩
    · exact (hb hbuy).trans (hb2 (hs.trans hbuy))
    · exact (hsh2 fun hc => hnb (hs ▸ hc)).trans (hsh hnb)

/-- C2: once `trailing_active` is true, any sequence of `update_trailing`
calls, with arbitrary ltp and atr values, leaves the stop-loss
non-decreasing for side BUY (long) and non-increasing for side SHORT. -/
theorem c2_trailing_monotonic (cfg : Config) (p : Position)
    (updates : List (ℚ × ℚ)) (h : p.trailingActive = true) :
    (p.side = "BUY" →
      p.stopLoss ≤ (apply_trailing cfg p updates).stopLoss) ∧
    (p.side = "SHORT" →
      (apply_trailing cfg p updates).stopLoss ≤ p.stopLoss) := by
  obtain ⟨-, -, hb, hsh⟩ := apply_trailing_mono cfg updates p h
  exact ⟨hb, fun hs => hsh fun hc => buy_ne_short ((hs.symm.trans hc).symm)⟩

/-- C2 witness: the theorem applied to a concrete trailing-active BUY
position and a concrete update sequence. -/
theorem c2_trailing_monotonic_witness :
    c2Pos.trailingActive = true ∧
    c2Pos.stopLoss ≤
      (apply_trailing defaultCfg c2Pos [(105, 1), (95, 2)]).stopLoss :=
  ⟨rfl, (c2_trailing_monotonic defaultCfg c2Pos [(105, 1), (95, 2)] rfl).1
    rfl⟩

/-! Claim C4: stop and target relative to entry -/

/-- C4 counterexample: `c4Pos` is exactly the position an entry at 100 with
ATR 2 creates, yet one `update_trailing(103, 0)` call activates trailing and
moves the stop to 100.10, strictly above the entry price — the claimed
"stop below entry for BUY" invariant fails for reachable positions. -/
theorem c4_counterexample :
    calc_stop_target defaultCfg 100 2 "BUY" =
      (c4Pos.stopLoss, c4Pos.target, c4Pos.initialRisk) ∧
    c4Pos.side = "BUY" ∧
    c4Pos.entryPrice < (c4Pos.update_trailing defaultCfg 103 0).stopLoss := by
  refine ⟨?_, rfl, ?_⟩
  · norm_num [calc_stop_target, risk_distance, target_distance, round2,
      defaultCfg, c4Pos]
  · norm_num [Position.update_trailing, round2, defaultCfg, c4Pos]

/-- C4 (amended): at creation time the stop/target are on the claimed sides
of the entry — whenever the risk and target distances exceed the two-decimal
rounding granularity (1/200), `_calc_stop_target` puts the stop strictly
below and the target strictly above the entry for BUY, and inverted for
SHORT.  The invariant is not preserved by later mutation: trailing
activation moves the stop to entry + 0.10 (above entry for BUY, see the
counterexample), and the position restored after an unfilled exit order
carries stop = 0 and target = 0 from the EXIT signal's defaults. -/
theorem c4_stop_target_sides (cfg : Config) (price atr : ℚ) (side : String)
    (h1 : 1/200 < risk_distance cfg price atr)
    (h2 : 1/200 < target_distance cfg price atr) :
    (side = "BUY" →
      (calc_stop_target cfg price atr side).1 < price ∧
      price < (calc_stop_target cfg price atr side).2.1) ∧
    (side = "SHORT" →
      price < (calc_stop_target cfg price atr side).1 ∧
      (calc_stop_target cfg price atr side).2.1 < price) := by
  have hs1 := round2_bounds (price - risk_distance cfg price atr)
  have hs2 := round2_bounds (price + risk_distance cfg price atr)
  have ht1 := round2_bounds (price + target_distance cfg price atr)
  have ht2 := round2_bounds (price - target_distance cfg price atr)
  unfold calc_stop_target
  split_ifs with hside
  · refine ⟨fun _ => ⟨?_, ?_⟩, fun hs => absurd (hside.symm.trans hs)
      buy_ne_short⟩
    · dsimp only
      linarith [hs1.2]
    · dsimp only
      linarith [ht1.1]
  · refine ⟨fun hb => absurd hb hside, fun _ => ⟨?_, ?_⟩⟩
    · dsimp only
      linarith [hs2.1]
    · dsimp only
      linarith [ht2.2]

/-- C4 witness: the amended theorem applied at entry 100, ATR 2, side BUY. -/
theorem c4_stop_target_sides_witness :
    (1:ℚ)/200 < risk_distance defaultCfg 100 2 ∧
    (1:ℚ)/200 < target_distance defaultCfg 100 2 ∧
    (calc_stop_target defaultCfg 100 2 "BUY").1 < 100 ∧
    (100:ℚ) < (calc_stop_target defaultCfg 100 2 "BUY").2.1 := by
  have h1 : (1:ℚ)/200 < risk_distance defaultCfg 100 2 := by
    norm_num [risk_distance, defaultCfg]
  have h2 : (1:ℚ)/200 < target_distance defaultCfg 100 2 := by
    norm_num [target_distance, defaultCfg]
  have h := (c4_stop_target_sides defaultCfg 100 2 "BUY" h1 h2).1 rfl
  exact ⟨h1, h2, h.1, h.2⟩

/-! Claim C9: recorded trade P&L -/

/-- C9 counterexample: `record_trade` branches on the side string "BUY", so
a call with the literal side "LONG" takes the short branch and returns
(entry − exit) × qty = −50, not the claimed 50. -/
theorem c9_counterexample :
    (RiskManager.init.record_trade "k" "LONG" 100 105 10 "exit").2 = -50 ∧
    ((-50 : ℚ) ≠ 50) := by
  norm_num [RiskManager.record_trade, long_ne_buy]

/-- C9 (amended): with the code's side label "BUY" for a long trade,
`record_trade(entry=100, exit=105, qty=10)` returns P&L 50; with side
"SHORT", `record_trade(entry=100, exit=95, qty=10)` returns 50; in both
cases the returned P&L is added to the realized P&L. -/
theorem c9_record_trade (rm : RiskManager) (key reason : String) :
    ((rm.record_trade key "BUY" 100 105 10 reason).2 = 50 ∧
      (rm.record_trade key "BUY" 100 105 10 reason).1.realisedPnl =
        rm.realisedPnl + 50) ∧
    ((rm.record_trade key "SHORT" 100 95 10 reason).2 = 50 ∧
      (rm.record_trade key "SHORT" 100 95 10 reason).1.realisedPnl =
        rm.realisedPnl + 50) := by
  norm_num [RiskManager.record_trade, short_ne_buy]

/-! Claim C7: the risk gate is not sticky in the RiskManager -/

/-- C7 counterexample: after `update_open_pnl(-60)` the max-loss gate reports
hit and `can_trade()` is false, yet a later `update_open_pnl(0)` on the same
RiskManager makes `can_trade()` true again. -/
theorem c7_counterexample :
    (RiskManager.init.update_open_pnl (-60)).is_max_loss_hit defaultCfg
      = true ∧
    (RiskManager.init.update_open_pnl (-60)).can_trade defaultCfg = false ∧
    ((RiskManager.init.update_open_pnl (-60)).update_open_pnl 0).can_trade
      defaultCfg = true := by
  norm_num [RiskManager.can_trade, RiskManager.is_profit_target_hit,
    RiskManager.is_max_loss_hit, RiskManager.total_pnl,
    RiskManager.update_open_pnl, RiskManager.init, round2, defaultCfg]

/-- C7 (amended): the RiskManager gate is memoryless — `can_trade()` after
`update_open_pnl(x)` is recomputed from the current realized P&L and x
alone, so it returns true again whenever the realized P&L is below the
profit target and the rounded total P&L is back above −dailyMaxLoss,
regardless of any earlier gate trip.  Session stickiness is enforced by the
orchestrator, which leaves its trading loop for good once the gate trips. -/
theorem c7_gate_memoryless (cfg : Config) (rm : RiskManager) (x : ℚ) :
    (rm.update_open_pnl x).can_trade cfg = true ↔
      (rm.realisedPnl < cfg.dailyProfitTarget ∧
        -cfg.dailyMaxLoss < round2 (rm.realisedPnl + x)) := by
  simp [RiskManager.can_trade, RiskManager.is_profit_target_hit,
    RiskManager.is_max_loss_hit, RiskManager.total_pnl,
    RiskManager.update_open_pnl, not_le]

/-! Claim C1: what can_trade checks -/

/-- C1: evaluation of the code at the failing input — after three completed
losing trades (trade count 3 = MAX_TRADES_PER_DAY, three consecutive
losses), `can_trade()` still returns true: the RiskManager checks only the
profit target and the max loss. -/
theorem c1_can_trade_ignores_trade_count :
    (((RiskManager.init.record_trade "k" "BUY" 100 99 1 "l").1.record_trade
        "k" "BUY" 100 99 1 "l").1.record_trade
        "k" "BUY" 100 99 1 "l").1.totalTrades = 3 ∧
    defaultCfg.maxTradesPerDay = 3 ∧
    (((RiskManager.init.record_trade "k" "BUY" 100 99 1 "l").1.record_trade
        "k" "BUY" 100 99 1 "l").1.record_trade
        "k" "BUY" 100 99 1 "l").1.can_trade defaultCfg = true := by
  norm_num [RiskManager.record_trade, RiskManager.init, RiskManager.can_trade,
    RiskManager.is_profit_target_hit, RiskManager.is_max_loss_hit,
    RiskManager.total_pnl, round2, defaultCfg]

/-! Claim C10: EXIT signal fields -/

lemma update_trailing_quantity (cfg : Config) (p : Position) (l a : ℚ) :
    (p.update_trailing cfg l a).quantity = p.quantity := by
  simp only [Position.update_trailing]
  split_ifs <;> rfl

lemma post_trailing_quantity (cfg : Config) (p : Position) (b : Bar) :
    (post_trailing cfg p b).quantity = p.quantity := by
  unfold post_trailing
  split_ifs
  · exact update_trailing_quantity cfg p b.close b.atr
  · rfl

/-- C10: while a position p is open, every EXIT signal `generate_signal` or
`force_exit_signal` returns carries the Signal dataclass defaults
stop_loss = 0 and target = 0 together with quantity = p.quantity, so a
consumer rebuilding a Position from an EXIT signal's stop_loss/target
fields (main.py's unfilled-exit restore) gets a zero stop and zero
target. -/
theorem c10_exit_signal_fields (cfg : Config) (st : ORBStrategy)
    (df : List Bar) (cap ltp : ℚ) (p : Position)
    (hp : st.position = some p) :
    ((st.generate_signal cfg df cap).2.action = "EXIT" →
      (st.generate_signal cfg df cap).2.stopLoss = 0 ∧
      (st.generate_signal cfg df cap).2.target = 0 ∧
      (st.generate_signal cfg df cap).2.quantity = p.quantity) ∧
    (∀ sg, (st.force_exit_signal ltp).2 = some sg →
      sg.action = "EXIT" ∧ sg.stopLoss = 0 ∧ sg.target = 0 ∧
      sg.quantity = p.quantity) ∧
    (∀ (key : String) (entryPrice : ℚ) (qty : ℤ) (sg : Signal),
      (restore_position key entryPrice qty sg).stopLoss = sg.stopLoss ∧
      (restore_position key entryPrice qty sg).target = sg.target) := by
  refine ⟨?_, ?_, fun key entryPrice qty sg => ⟨rfl, rfl⟩⟩
  · by_cases hg : (df = [] ∨ df.length < cfg.emaSlow + 5)
    · rw [ORBStrategy.generate_signal, if_pos hg]
      intro hE
      exact absurd hE (by simp [holdSignal])
    · have hlen : cfg.emaSlow + 5 ≤ df.length := by
        push_neg at hg
        exact hg.2
      obtain ⟨b, hL⟩ : ∃ b, df.getLast? = some b := by
        cases hgl : df.getLast? with
        | none =>
          exact absurd (List.getLast?_eq_none_iff.mp hgl) fun h => hg (Or.inl h)
        | some b => exact ⟨b, rfl⟩
      rw [generate_signal_open cfg st df cap p b hp hlen hL]
      simp only [ORBStrategy.manage_position]
      have hq := post_trailing_quantity cfg p b
      set q := post_trailing cfg p b
      clear_value q
      split_ifs <;> intro hE
      · exact ⟨rfl, rfl, hq⟩
      · exact ⟨rfl, rfl, hq⟩
      · exact ⟨rfl, rfl, hq⟩
      · exact ⟨rfl, rfl, hq⟩
      · exact ⟨rfl, rfl, hq⟩
      · exact ⟨rfl, rfl, hq⟩
      · exact absurd hE (by simp)
  · intro sg hsg
    simp only [ORBStrategy.force_exit_signal, hp] at hsg
    injection hsg with h
    subst h
    exact ⟨rfl, rfl, rfl, rfl⟩

/-- C10 witness: the theorem applied at a concrete stop-loss EXIT. -/
theorem c10_exit_signal_fields_witness :
    c10St.position = some c10Pos ∧
    ((c10St.generate_signal defaultCfg c10Df 0).2.stopLoss = 0 ∧
      (c10St.generate_signal defaultCfg c10Df 0).2.target = 0 ∧
      (c10St.generate_signal defaultCfg c10Df 0).2.quantity =
        c10Pos.quantity) := by
  have hE : (c10St.generate_signal defaultCfg c10Df 0).2.action = "EXIT" := by
    rw [generate_signal_open defaultCfg c10St c10Df 0 c10Pos c10Bar rfl
      (by norm_num [c10Df, defaultCfg]) (by simp [c10Df])]
    have hpost : post_trailing defaultCfg c10Pos c10Bar = c10Pos := by
      norm_num [post_trailing, c10Bar]
    simp only [ORBStrategy.manage_position, hpost]
    norm_num [c10Pos, c10Bar]
  exact ⟨rfl,
    (c10_exit_signal_fields defaultCfg c10St c10Df 0 0 c10Pos rfl).1 hE⟩

end OrbBot
